import Mathlib

set_option autoImplicit false

namespace StateManager

/-- A JSON-compatible value, as exchanged in Lambda events, DynamoDB items and
response bodies.  Numbers are modelled as integers (the handler never computes
with them). -/
inductive Json where
  | null : Json
  | bool : Bool → Json
  | num : Int → Json
  | str : String → Json
  | arr : List Json → Json
  | obj : List (String × Json) → Json

/-- First-match lookup in an association list, modelling Python dict access
(dict keys are unique, so first-match agrees with dict semantics). -/
def lookupKey {β : Type} : List (String × β) → String → Option β
  | [], _ => none
  | (k, v) :: rest, key => if k = key then some v else lookupKey rest key

/-- Set a key to a value in an association list, replacing an existing binding
in place or appending a fresh one.  Models both a DynamoDB attribute SET and
the table upsert of the whole item. -/
def setKey {β : Type} : List (String × β) → String → β → List (String × β)
  | [], key, val => [(key, val)]
  | (k, v) :: rest, key, val =>
      if k = key then (key, val) :: rest else (k, v) :: setKey rest key val

/-- Python truthiness of a JSON value: None, False, 0, the empty string, the
empty list and the empty dict are falsy; everything else is truthy.  Models
the checks `if not file_name` and `if not new_state`. -/
def truthy : Json → Bool
  | .null => false
  | .bool b => b
  | .num n => n != 0
  | .str s => !s.isEmpty
  | .arr xs => !xs.isEmpty
  | .obj kvs => !kvs.isEmpty

/-- The Python type name of a JSON value, used in AttributeError texts. -/
def pyTypeName : Json → String
  | .null => "NoneType"
  | .bool _ => "bool"
  | .num _ => "int"
  | .str _ => "str"
  | .arr _ => "list"
  | .obj _ => "dict"

/-- ASCII uppercasing of a string, character by character.  Models Python
`str.upper()` on the ASCII range, which covers the comparisons the handler
makes. -/
def upperAscii (s : String) : String :=
  String.mk (s.data.map Char.toUpper)

/-- Python `value.upper()`: succeeds only on strings; on any other value the
attribute access raises AttributeError, modelled as an error. -/
def pyUpper : Json → Except String String
  | .str s => .ok (upperAscii s)
  | v => .error ("AttributeError: " ++ pyTypeName v ++ " object has no attribute upper")

/-- A DynamoDB item: a finite map from attribute names to values. -/
abbrev AttrMap := List (String × Json)

/-- The DynamoDB table keyed by `file_name`.  The table schema declares the
key as a string, so the store is keyed by `String`. -/
abbrev Store := List (String × AttrMap)

/-- One call made to the DynamoDB table, recorded so that "no store access"
and "not retried" can be stated. -/
inductive StoreCall where
  | getItem : Json → StoreCall
  | updateItem : Json → Json → String → Json → StoreCall

/-- An HTTP-style Lambda proxy response: a numeric status code and a JSON
body (the source serialises the body with json.dumps; the body is modelled
structurally). -/
structure Response where
  statusCode : Nat
  body : Json

/-- `table.get_item(Key=\x7b'file_name': file_name\x7d)`: when `fail` is set the
store raises (network/throttling/permission failure); a non-string key is
rejected by the table, whose schema declares `file_name` as a string key.
Returns the item when the key is present. -/
def store_get_item (fail : Bool) (store : Store) (file_name : Json) :
    Except String (Option AttrMap) :=
  if fail then .error "ClientError: DynamoDB operation failed"
  else
    match file_name with
    | .str key => .ok (lookupKey store key)
    | _ => .error "ClientError: ValidationException: key type mismatch"

/-- `table.update_item(...)` with
`UpdateExpression = SET #state = :state, updated_at = :timestamp, metadata = :metadata`
and `ReturnValues = ALL_NEW`: an atomic upsert that creates the item (with its
key attribute) if absent, then sets the three attributes, fully replacing each;
returns the new store and the post-update item. -/
def store_update_item (fail : Bool) (store : Store) (file_name state : Json)
    (timestamp : String) (metadata : Json) : Except String (Store × AttrMap) :=
  if fail then .error "ClientError: DynamoDB operation failed"
  else
    match file_name with
    | .str key =>
        let base := (lookupKey store key).getD [("file_name", .str key)]
        let item := setKey (setKey (setKey base "state" state)
                      "updated_at" (.str timestamp)) "metadata" metadata
        .ok (setKey store key item, item)
    | _ => .error "ClientError: ValidationException: key type mismatch"

/-- `item.get(name)` and `item.get(name, default)` on a DynamoDB item. -/
def attrGet (item : AttrMap) (key : String) : Option Json :=
  lookupKey item key

/-- Source `get_state(file_name)`: looks the item up; if present, a 200
response echoing the item's attributes (metadata defaulting to the empty
mapping) with `exists: true`; if absent, a 200 response with null state,
empty metadata, `exists: false` and no updated_at field.  Store failures
propagate (the except clause only logs and re-raises).  Also returns the
store calls made. -/
def get_state (fail : Bool) (store : Store) (file_name : Json) :
    Except String Response × List StoreCall :=
  let calls := [StoreCall.getItem file_name]
  match store_get_item fail store file_name with
  | .error e => (.error e, calls)
  | .ok (some item) =>
      (.ok { statusCode := 200,
             body := .obj [
               ("file_name", (attrGet item "file_name").getD .null),
               ("state", (attrGet item "state").getD .null),
               ("metadata", (attrGet item "metadata").getD (.obj [])),
               ("updated_at", (attrGet item "updated_at").getD .null),
               ("exists", .bool true)] }, calls)
  | .ok none =>
      (.ok { statusCode := 200,
             body := .obj [
               ("file_name", file_name),
               ("state", .null),
               ("metadata", .obj []),
               ("exists", .bool false)] }, calls)

/-- Source `update_state(file_name, new_state, metadata)`: upserts the item
setting state, updated_at and metadata, and returns a 200 response built from
the post-update item (`ReturnValues = ALL_NEW`) with `success: true`.  The
timestamp (`datetime.utcnow().isoformat()` in the source) is passed in as the
clock reading.  Store failures propagate.  Also returns the store calls
made. -/
def update_state (fail : Bool) (store : Store) (file_name new_state metadata : Json)
    (timestamp : String) : Except String (Response × Store) × List StoreCall :=
  let calls := [StoreCall.updateItem file_name new_state timestamp metadata]
  match store_update_item fail store file_name new_state timestamp metadata with
  | .error e => (.error e, calls)
  | .ok (newStore, updated_item) =>
      (.ok ({ statusCode := 200,
              body := .obj [
                ("file_name", (attrGet updated_item "file_name").getD .null),
                ("state", (attrGet updated_item "state").getD .null),
                ("metadata", (attrGet updated_item "metadata").getD (.obj [])),
                ("updated_at", (attrGet updated_item "updated_at").getD .null),
                ("success", .bool true)] }, newStore), calls)

/-- Request body selection at the top of `lambda_handler`:
if `event.get('body')` is a string it is JSON-decoded (`json.loads` is the
`loads` parameter, an external decoder); otherwise `event.get('body', event)`
is used — the body value itself when the key is present, the whole event when
it is absent.  `event.get` raises on a non-dict event. -/
def parse_body (loads : String → Except String Json) (event : Json) :
    Except String Json :=
  match event with
  | .obj kvs =>
      match lookupKey kvs "body" with
      | some (.str s) => loads s
      | some v => .ok v
      | none => .ok event
  | v => .error ("AttributeError: " ++ pyTypeName v ++ " object has no attribute get")

/-- The validated dispatch inside the try block of `lambda_handler`, applied
to the parsed body: computes `operation = body.get('operation', '').upper()`
(which raises on a non-string), rejects a falsy `file_name` with a 400,
dispatches GET / UPDATE, rejects a falsy `new_state` on UPDATE with a 400,
and rejects any other operation with a 400 naming it.  Returns the outcome
(response and store, or the exception), and the store calls made. -/
def handler_core (fail : Bool) (timestamp : String) (store : Store) (body : Json) :
    Except String (Response × Store) × List StoreCall :=
  match body with
  | .obj kvs =>
      match pyUpper ((lookupKey kvs "operation").getD (.str "")) with
      | .error e => (.error e, [])
      | .ok operation =>
          let file_name := (lookupKey kvs "file_name").getD .null
          if truthy file_name = false then
            (.ok ({ statusCode := 400,
                    body := .obj [("error", .str "file_name is required")] }, store), [])
          else if operation = "GET" then
            match get_state fail store file_name with
            | (.error e, calls) => (.error e, calls)
            | (.ok resp, calls) => (.ok (resp, store), calls)
          else if operation = "UPDATE" then
            let new_state := (lookupKey kvs "new_state").getD .null
            let metadata := (lookupKey kvs "metadata").getD (.obj [])
            if truthy new_state = false then
              (.ok ({ statusCode := 400,
                      body := .obj [("error",
                        .str "new_state is required for UPDATE operation")] }, store), [])
            else
              update_state fail store file_name new_state metadata timestamp
          else
            (.ok ({ statusCode := 400,
                    body := .obj [("error",
                      .str ("Invalid operation: " ++ operation ++ ". Use GET or UPDATE"))] },
                  store), [])
  | v => (.error ("AttributeError: " ++ pyTypeName v ++ " object has no attribute get"), [])

/-- Source `lambda_handler(event, context)`: parses the body, runs the
dispatch, and converts any exception raised anywhere inside the try block
into a 500 response whose body carries the exception text; on an exception
the store is left as it was.  Returns the response, the resulting store and
the store calls made. -/
def lambda_handler (loads : String → Except String Json) (fail : Bool)
    (timestamp : String) (store : Store) (event : Json) :
    Response × Store × List StoreCall :=
  match parse_body loads event with
  | .error e =>
      ({ statusCode := 500, body := .obj [("error", .str e)] }, store, [])
  | .ok body =>
      match handler_core fail timestamp store body with
      | (.error e, calls) =>
          ({ statusCode := 500, body := .obj [("error", .str e)] }, store, calls)
      | (.ok (resp, newStore), calls) => (resp, newStore, calls)

/-- Field access on a response body, for stating claims about individual
response fields. -/
def respField (r : Response) (key : String) : Option Json :=
  match r.body with
  | .obj kvs => lookupKey kvs key
  | _ => none

@[simp]
theorem lookupKey_nil {β : Type} (key : String) :
    lookupKey ([] : List (String × β)) key = none := rfl

@[simp]
theorem lookupKey_cons {β : Type} (k : String) (v : β) (rest : List (String × β))
    (key : String) :
    lookupKey ((k, v) :: rest) key = if k = key then some v else lookupKey rest key := rfl

@[simp]
theorem lookupKey_setKey_self {β : Type} (m : List (String × β)) (k : String) (v : β) :
    lookupKey (setKey m k v) k = some v := by
  induction m with
  | nil => simp [setKey]
  | cons hd tl ih =>
      obtain ⟨k2, v2⟩ := hd
      by_cases h : k2 = k <;> simp [setKey, h, ih]

theorem lookupKey_setKey_ne {β : Type} (m : List (String × β)) (k key : String) (v : β)
    (h : k ≠ key) :
    lookupKey (setKey m k v) key = lookupKey m key := by
  induction m with
  | nil => simp [setKey, h]
  | cons hd tl ih =>
      obtain ⟨k2, v2⟩ := hd
      by_cases h2 : k2 = k <;> simp [setKey, h2, h, ih]

/-- The item written by a successful upsert holds exactly the new state,
timestamp and metadata under their attribute names. -/
theorem store_update_item_ok (store : Store) (key : String) (state metadata : Json)
    (timestamp : String) :
    ∃ item,
      store_update_item false store (.str key) state timestamp metadata =
        .ok (setKey store key item, item) ∧
      attrGet item "state" = some state ∧
      attrGet item "updated_at" = some (.str timestamp) ∧
      attrGet item "metadata" = some metadata := by
  refine ⟨_, rfl, ?_, ?_, ?_⟩ <;>
    simp [attrGet, lookupKey_setKey_ne, lookupKey_setKey_self]

/-- C1: for every file_name, an Update that succeeds followed by a Get on the
same file_name yields a 200 response whose state, metadata and updated_at
equal the values just written by the Update (which the Update response also
reports), with exists true. -/
theorem update_then_get_reads_written_values (store : Store) (fn : String)
    (ns md : Json) (ts : String) :
    ∃ r1 store1 c1,
      update_state false store (.str fn) ns md ts = (.ok (r1, store1), c1) ∧
      r1.statusCode = 200 ∧
      ∃ r2 c2, get_state false store1 (.str fn) = (.ok r2, c2) ∧
        r2.statusCode = 200 ∧
        respField r2 "state" = some ns ∧
        respField r2 "metadata" = some md ∧
        respField r2 "updated_at" = some (.str ts) ∧
        respField r2 "exists" = some (.bool true) ∧
        respField r1 "state" = respField r2 "state" ∧
        respField r1 "metadata" = respField r2 "metadata" ∧
        respField r1 "updated_at" = respField r2 "updated_at" := by
  obtain ⟨item, hupd, hst, hts, hmd⟩ := store_update_item_ok store fn ns md ts
  refine ⟨{ statusCode := 200, body := .obj [
      ("file_name", (attrGet item "file_name").getD .null),
      ("state", (attrGet item "state").getD .null),
      ("metadata", (attrGet item "metadata").getD (.obj [])),
      ("updated_at", (attrGet item "updated_at").getD .null),
      ("success", .bool true)] },
    setKey store fn item, [StoreCall.updateItem (.str fn) ns ts md], ?_, rfl, ?_⟩
  · simp [update_state, hupd]
  · refine ⟨{ statusCode := 200, body := .obj [
        ("file_name", (attrGet item "file_name").getD .null),
        ("state", (attrGet item "state").getD .null),
        ("metadata", (attrGet item "metadata").getD (.obj [])),
        ("updated_at", (attrGet item "updated_at").getD .null),
        ("exists", .bool true)] }, [StoreCall.getItem (.str fn)], ?_, rfl, ?_⟩
    · simp [get_state, store_get_item, lookupKey_setKey_self]
    · simp [respField, hst, hts, hmd]

/-- A successful update writes one item into the store under the file name and
returns a 200 response reporting the written state, metadata and timestamp. -/
theorem update_state_ok (store : Store) (fn : String) (ns md : Json) (ts : String) :
    ∃ item r,
      update_state false store (.str fn) ns md ts =
        (.ok (r, setKey store fn item), [StoreCall.updateItem (.str fn) ns ts md]) ∧
      r.statusCode = 200 ∧
      respField r "state" = some ns ∧
      respField r "metadata" = some md ∧
      respField r "updated_at" = some (.str ts) ∧
      respField r "success" = some (.bool true) ∧
      attrGet item "state" = some ns ∧
      attrGet item "updated_at" = some (.str ts) ∧
      attrGet item "metadata" = some md := by
  obtain ⟨item, hupd, hst, hts, hmd⟩ := store_update_item_ok store fn ns md ts
  refine ⟨item, { statusCode := 200, body := .obj [
      ("file_name", (attrGet item "file_name").getD .null),
      ("state", (attrGet item "state").getD .null),
      ("metadata", (attrGet item "metadata").getD (.obj [])),
      ("updated_at", (attrGet item "updated_at").getD .null),
      ("success", .bool true)] }, ?_, rfl, ?_⟩
  · simp [update_state, hupd]
  · simp [respField, hst, hts, hmd]

/-- C2: the second of two successive Updates fully replaces the stored
metadata with the metadata it was given, and likewise overwrites state and
updated_at; nothing of the first Update's values survives in the record. -/
theorem second_update_fully_replaces (store : Store) (fn : String)
    (s1 md1 s2 md2 : Json) (t1 t2 : String) :
    ∃ r1 store1 c1 r2 store2 c2,
      update_state false store (.str fn) s1 md1 t1 = (.ok (r1, store1), c1) ∧
      update_state false store1 (.str fn) s2 md2 t2 = (.ok (r2, store2), c2) ∧
      ∃ item, lookupKey store2 fn = some item ∧
        attrGet item "metadata" = some md2 ∧
        attrGet item "state" = some s2 ∧
        attrGet item "updated_at" = some (.str t2) ∧
        respField r2 "metadata" = some md2 ∧
        respField r2 "state" = some s2 ∧
        respField r2 "updated_at" = some (.str t2) := by
  obtain ⟨item1, r1, h1, -, -, -, -, -, -, -, -⟩ := update_state_ok store fn s1 md1 t1
  obtain ⟨item2, r2, h2, -, hrs2, hrm2, hrt2, -, hst2, hts2, hmd2⟩ :=
    update_state_ok (setKey store fn item1) fn s2 md2 t2
  exact ⟨r1, _, _, r2, _, _, h1, h2, item2, lookupKey_setKey_self _ _ _,
    hmd2, hst2, hts2, hrm2, hrs2, hrt2⟩

/-- C8: applying the same Update twice in succession yields two 200 responses
with identical state and metadata; the second response carries the freshly
computed timestamp of the second call, distinct from the first. -/
theorem repeat_update_fresh_timestamp (store : Store) (fn : String)
    (ns md : Json) (t1 t2 : String) (hne : t1 ≠ t2) :
    ∃ r1 store1 c1 r2 store2 c2,
      update_state false store (.str fn) ns md t1 = (.ok (r1, store1), c1) ∧
      update_state false store1 (.str fn) ns md t2 = (.ok (r2, store2), c2) ∧
      r1.statusCode = 200 ∧ r2.statusCode = 200 ∧
      respField r1 "state" = some ns ∧ respField r2 "state" = some ns ∧
      respField r1 "metadata" = some md ∧ respField r2 "metadata" = some md ∧
      respField r1 "updated_at" = some (.str t1) ∧
      respField r2 "updated_at" = some (.str t2) ∧
      respField r1 "updated_at" ≠ respField r2 "updated_at" := by
  obtain ⟨item1, r1, h1, hc1, hrs1, hrm1, hrt1, -, -, -, -⟩ := update_state_ok store fn ns md t1
  obtain ⟨item2, r2, h2, hc2, hrs2, hrm2, hrt2, -, -, -, -⟩ :=
    update_state_ok (setKey store fn item1) fn ns md t2
  refine ⟨r1, _, _, r2, _, _, h1, h2, hc1, hc2, hrs1, hrs2, hrm1, hrm2, hrt1, hrt2, ?_⟩
  rw [hrt1, hrt2]
  simp [hne]

/-- Witness for C8 at a concrete repeated update with two distinct clock
readings. -/
theorem repeat_update_fresh_timestamp_witness :
    ("t1" : String) ≠ "t2" ∧
    (∃ r1 store1 c1 r2 store2 c2,
      update_state false [] (.str "doc1.pdf") (.str "PENDING_OCR") (.obj []) "t1" =
        (.ok (r1, store1), c1) ∧
      update_state false store1 (.str "doc1.pdf") (.str "PENDING_OCR") (.obj []) "t2" =
        (.ok (r2, store2), c2) ∧
      r1.statusCode = 200 ∧ r2.statusCode = 200 ∧
      respField r1 "state" = some (.str "PENDING_OCR") ∧
      respField r2 "state" = some (.str "PENDING_OCR") ∧
      respField r1 "metadata" = some (.obj []) ∧
      respField r2 "metadata" = some (.obj []) ∧
      respField r1 "updated_at" = some (.str "t1") ∧
      respField r2 "updated_at" = some (.str "t2") ∧
      respField r1 "updated_at" ≠ respField r2 "updated_at") :=
  ⟨by decide,
   repeat_update_fresh_timestamp [] "doc1.pdf" (.str "PENDING_OCR") (.obj [])
     "t1" "t2" (by decide)⟩

/-- C3: Get on a file_name for which no record exists returns a 200 success
response with null state, empty metadata, exists false, and no updated_at
field. -/
theorem get_missing_record (store : Store) (fn : String)
    (h : lookupKey store fn = none) :
    ∃ r, get_state false store (.str fn) = (.ok r, [StoreCall.getItem (.str fn)]) ∧
      r.statusCode = 200 ∧
      respField r "file_name" = some (.str fn) ∧
      respField r "state" = some .null ∧
      respField r "metadata" = some (.obj []) ∧
      respField r "exists" = some (.bool false) ∧
      respField r "updated_at" = none := by
  refine ⟨{ statusCode := 200, body := .obj [
      ("file_name", .str fn), ("state", .null), ("metadata", .obj []),
      ("exists", .bool false)] }, ?_, rfl, ?_⟩
  · simp [get_state, store_get_item, h]
  · simp [respField]

/-- Witness for C3 at a concrete never-written file name against the empty
store. -/
theorem get_missing_record_witness :
    lookupKey ([] : Store) "missing.pdf" = none ∧
    (∃ r, get_state false [] (.str "missing.pdf") =
        (.ok r, [StoreCall.getItem (.str "missing.pdf")]) ∧
      r.statusCode = 200 ∧
      respField r "file_name" = some (.str "missing.pdf") ∧
      respField r "state" = some .null ∧
      respField r "metadata" = some (.obj []) ∧
      respField r "exists" = some (.bool false) ∧
      respField r "updated_at" = none) :=
  ⟨rfl, get_missing_record [] "missing.pdf" rfl⟩

/-- C10: the request payload is the JSON-decoded body when the body field is
a string, the body value itself when the body field is present and not a
string, and the whole event when the event has no body field. -/
theorem parse_body_selects_payload (loads : String → Except String Json)
    (kvs : List (String × Json)) :
    (∀ s, lookupKey kvs "body" = some (.str s) →
        parse_body loads (.obj kvs) = loads s) ∧
    (∀ v, lookupKey kvs "body" = some v → (∀ s, v ≠ .str s) →
        parse_body loads (.obj kvs) = .ok v) ∧
    (lookupKey kvs "body" = none → parse_body loads (.obj kvs) = .ok (.obj kvs)) := by
  refine ⟨?_, ?_, ?_⟩
  · intro s h
    simp [parse_body, h]
  · intro v h hv
    cases v <;> simp [parse_body, h]
    exact absurd rfl (hv _)
  · intro h
    simp [parse_body, h]

/-- Witness for C10 at concrete events: a string body is decoded, a numeric
body is used directly, and an event without a body is itself the payload. -/
theorem parse_body_selects_payload_witness :
    parse_body (fun s => .ok (.str s)) (.obj [("body", .str "x")]) = .ok (.str "x") ∧
    parse_body (fun s => .ok (.str s)) (.obj [("body", .num 3)]) = .ok (.num 3) ∧
    parse_body (fun s => .ok (.str s)) (.obj [("k", .null)]) = .ok (.obj [("k", .null)]) :=
  ⟨(parse_body_selects_payload _ _).1 "x" rfl,
   (parse_body_selects_payload _ _).2.1 (.num 3) rfl (fun s h => by cases h),
   (parse_body_selects_payload _ _).2.2 rfl⟩

/-- Counterexample to C4 as stated: a payload lacking file_name whose
operation is the number 5 produces a 500 (the attribute access
`body.get('operation', '').upper()` raises before the file_name check),
not the claimed 400. -/
theorem missing_file_name_nonstring_op_counterexample :
    (lambda_handler (fun _ => .error "bad json") false "t" []
        (.obj [("operation", .num 5)])).1.statusCode = 500 ∧ (500 : Nat) ≠ 400 :=
  ⟨rfl, by decide⟩

/-- C4 (amended): for every request whose payload is an object lacking a
(truthy) file_name and whose operation field is absent or a string, the
handler returns a 400 response with the explanatory error and makes no store
call, leaving the store unchanged. -/
theorem missing_file_name_yields_400 (loads : String → Except String Json)
    (fail : Bool) (ts : String) (store : Store) (event : Json)
    (kvs : List (String × Json))
    (hparse : parse_body loads event = .ok (.obj kvs))
    (hop : ∀ v, lookupKey kvs "operation" = some v → ∃ s, v = .str s)
    (hfn : truthy ((lookupKey kvs "file_name").getD .null) = false) :
    lambda_handler loads fail ts store event =
      ({ statusCode := 400, body := .obj [("error", .str "file_name is required")] },
       store, []) := by
  rcases hlk : lookupKey kvs "operation" with _ | v
  · simp [lambda_handler, hparse, handler_core, hlk, pyUpper, hfn]
  · obtain ⟨s, rfl⟩ := hop v hlk
    simp [lambda_handler, hparse, handler_core, hlk, pyUpper, hfn]

/-- Witness for the amended C4 at a concrete GET request without file_name. -/
theorem missing_file_name_yields_400_witness :
    parse_body (fun _ => .error "bad json") (.obj [("operation", .str "GET")]) =
      .ok (.obj [("operation", .str "GET")]) ∧
    (∀ v, lookupKey [("operation", Json.str "GET")] "operation" = some v →
        ∃ s, v = .str s) ∧
    truthy ((lookupKey [("operation", Json.str "GET")] "file_name").getD .null) = false ∧
    lambda_handler (fun _ => .error "bad json") false "t" [] (.obj [("operation", .str "GET")]) =
      ({ statusCode := 400, body := .obj [("error", .str "file_name is required")] },
       [], []) :=
  ⟨rfl, fun v h => ⟨"GET", by simp at h; exact h.symm⟩, rfl,
   missing_file_name_yields_400 _ false "t" [] _ _ rfl
     (fun v h => ⟨"GET", by simp at h; exact h.symm⟩) rfl⟩

/-- Counterexample to C5 as stated: with file_name present, an operation that
is the number 7 is not case-insensitively GET or UPDATE, yet the handler
returns a 500 (the `.upper()` attribute access raises), not the claimed
400. -/
theorem invalid_operation_nonstring_counterexample :
    (lambda_handler (fun _ => .error "bad json") false "t" []
        (.obj [("file_name", .str "a.pdf"), ("operation", .num 7)])).1.statusCode = 500 ∧
    (500 : Nat) ≠ 400 :=
  ⟨rfl, by decide⟩

/-- C5 (amended): for every request with a truthy file_name whose operation
is a string not case-insensitively equal to GET or UPDATE, the handler
returns a 400 response whose error message names the uppercased operation
value, and makes no store call; a non-string operation yields a 500
instead. -/
theorem invalid_operation_yields_400 (loads : String → Except String Json)
    (fail : Bool) (ts : String) (store : Store) (event : Json)
    (kvs : List (String × Json)) (op : String)
    (hparse : parse_body loads event = .ok (.obj kvs))
    (hop : lookupKey kvs "operation" = some (.str op))
    (hfn : truthy ((lookupKey kvs "file_name").getD .null) = true)
    (hget : upperAscii op ≠ "GET") (hupd : upperAscii op ≠ "UPDATE") :
    lambda_handler loads fail ts store event =
      ({ statusCode := 400,
         body := .obj [("error",
           .str ("Invalid operation: " ++ upperAscii op ++ ". Use GET or UPDATE"))] },
       store, []) := by
  simp [lambda_handler, hparse, handler_core, hop, pyUpper, hfn, hget, hupd]

/-- Witness for the amended C5 at operation "delete" (named as DELETE). -/
theorem invalid_operation_yields_400_witness :
    parse_body (fun _ => .error "bad json")
        (.obj [("file_name", .str "a.pdf"), ("operation", .str "delete")]) =
      .ok (.obj [("file_name", .str "a.pdf"), ("operation", .str "delete")]) ∧
    lookupKey [("file_name", Json.str "a.pdf"), ("operation", Json.str "delete")]
        "operation" = some (.str "delete") ∧
    truthy ((lookupKey [("file_name", Json.str "a.pdf"), ("operation", Json.str "delete")]
        "file_name").getD .null) = true ∧
    upperAscii "delete" ≠ "GET" ∧ upperAscii "delete" ≠ "UPDATE" ∧
    lambda_handler (fun _ => .error "bad json") false "t" []
        (.obj [("file_name", .str "a.pdf"), ("operation", .str "delete")]) =
      ({ statusCode := 400,
         body := .obj [("error",
           .str ("Invalid operation: " ++ upperAscii "delete" ++ ". Use GET or UPDATE"))] },
       [], []) :=
  ⟨rfl, rfl, rfl, by decide, by decide,
   invalid_operation_yields_400 _ false "t" [] _ _ "delete" rfl rfl rfl
     (by decide) (by decide)⟩

/-- C6: for every UPDATE request with a truthy file_name whose payload lacks
a new_state, the handler returns a 400 response with an error field, and no
store call is made. -/
theorem update_missing_new_state_yields_400 (loads : String → Except String Json)
    (fail : Bool) (ts : String) (store : Store) (event : Json)
    (kvs : List (String × Json)) (op : String)
    (hparse : parse_body loads event = .ok (.obj kvs))
    (hop : lookupKey kvs "operation" = some (.str op))
    (hup : upperAscii op = "UPDATE")
    (hfn : truthy ((lookupKey kvs "file_name").getD .null) = true)
    (hns : lookupKey kvs "new_state" = none) :
    lambda_handler loads fail ts store event =
      ({ statusCode := 400,
         body := .obj [("error", .str "new_state is required for UPDATE operation")] },
       store, []) := by
  have hnull : truthy Json.null = false := rfl
  simp [lambda_handler, hparse, handler_core, hop, pyUpper, hup, hfn, hns, hnull]

/-- Witness for C6 at a concrete UPDATE request without new_state. -/
theorem update_missing_new_state_yields_400_witness :
    parse_body (fun _ => .error "bad json")
        (.obj [("operation", .str "Update"), ("file_name", .str "a.pdf")]) =
      .ok (.obj [("operation", .str "Update"), ("file_name", .str "a.pdf")]) ∧
    lookupKey [("operation", Json.str "Update"), ("file_name", Json.str "a.pdf")]
        "operation" = some (.str "Update") ∧
    upperAscii "Update" = "UPDATE" ∧
    truthy ((lookupKey [("operation", Json.str "Update"), ("file_name", Json.str "a.pdf")]
        "file_name").getD .null) = true ∧
    lookupKey [("operation", Json.str "Update"), ("file_name", Json.str "a.pdf")]
        "new_state" = none ∧
    lambda_handler (fun _ => .error "bad json") false "t" []
        (.obj [("operation", .str "Update"), ("file_name", .str "a.pdf")]) =
      ({ statusCode := 400,
         body := .obj [("error", .str "new_state is required for UPDATE operation")] },
       [], []) :=
  ⟨rfl, rfl, by decide, rfl, rfl,
   update_missing_new_state_yields_400 _ false "t" [] _ _ "Update" rfl rfl
     (by decide) rfl rfl⟩

/-- Counterexample to C9 as stated: with file_name present but empty and a
numeric operation, the handler returns a 500 (the `.upper()` attribute access
raises before the file_name check), not the claimed 400. -/
theorem empty_file_name_nonstring_op_counterexample :
    (lambda_handler (fun _ => .error "bad json") false "t" []
        (.obj [("file_name", .str ""), ("operation", .num 5)])).1.statusCode = 500 ∧
    (500 : Nat) ≠ 400 :=
  ⟨rfl, by decide⟩

/-- C9 (amended): a payload whose file_name is present but equal to the empty
string is treated exactly as one with no file_name binding at all (the check
is truthiness-based), and when the operation field is absent or a string the
handler returns the 400 file_name-required response with no store call. -/
theorem empty_file_name_as_missing (loads : String → Except String Json)
    (fail : Bool) (ts : String) (store : Store) (event1 event2 : Json)
    (kvs : List (String × Json))
    (h1 : parse_body loads event1 = .ok (.obj (("file_name", .str "") :: kvs)))
    (h2 : parse_body loads event2 = .ok (.obj kvs))
    (hfresh : lookupKey kvs "file_name" = none) :
    lambda_handler loads fail ts store event1 = lambda_handler loads fail ts store event2 ∧
    ((∀ v, lookupKey kvs "operation" = some v → ∃ s, v = .str s) →
      lambda_handler loads fail ts store event1 =
        ({ statusCode := 400, body := .obj [("error", .str "file_name is required")] },
         store, [])) := by
  have hemp : ("" : String).isEmpty = true := rfl
  constructor
  · simp only [lambda_handler, h1, h2]
    cases hpu : pyUpper ((lookupKey (("file_name", Json.str "") :: kvs) "operation").getD
        (.str "")) with
    | error e =>
        have hpu2 : pyUpper ((lookupKey kvs "operation").getD (.str "")) = .error e := by
          simpa using hpu
        simp [handler_core, hpu, hpu2]
    | ok op =>
        have hpu2 : pyUpper ((lookupKey kvs "operation").getD (.str "")) = .ok op := by
          simpa using hpu
        simp [handler_core, hpu, hpu2, hfresh, truthy, hemp]
  · intro hop
    rcases hlk : lookupKey kvs "operation" with _ | v
    · simp [lambda_handler, h1, handler_core, hlk, pyUpper, truthy, hemp]
    · obtain ⟨s, rfl⟩ := hop v hlk
      simp [lambda_handler, h1, handler_core, hlk, pyUpper, truthy, hemp]

/-- Witness for the amended C9: an empty file_name request behaves as the same
request without the file_name binding, and yields the 400 response. -/
theorem empty_file_name_as_missing_witness :
    parse_body (fun _ => .error "bad json")
        (.obj [("file_name", .str ""), ("operation", .str "GET")]) =
      .ok (.obj (("file_name", .str "") :: [("operation", .str "GET")])) ∧
    parse_body (fun _ => .error "bad json") (.obj [("operation", .str "GET")]) =
      .ok (.obj [("operation", .str "GET")]) ∧
    lookupKey [("operation", Json.str "GET")] "file_name" = none ∧
    lambda_handler (fun _ => .error "bad json") false "t" []
        (.obj [("file_name", .str ""), ("operation", .str "GET")]) =
      lambda_handler (fun _ => .error "bad json") false "t" []
        (.obj [("operation", .str "GET")]) ∧
    lambda_handler (fun _ => .error "bad json") false "t" []
        (.obj [("file_name", .str ""), ("operation", .str "GET")]) =
      ({ statusCode := 400, body := .obj [("error", .str "file_name is required")] },
       [], []) :=
  ⟨rfl, rfl, rfl,
   (empty_file_name_as_missing (fun _ => .error "bad json") false "t" []
      (.obj [("file_name", .str ""), ("operation", .str "GET")])
      (.obj [("operation", .str "GET")]) [("operation", Json.str "GET")] rfl rfl rfl).1,
   (empty_file_name_as_missing (fun _ => .error "bad json") false "t" []
      (.obj [("file_name", .str ""), ("operation", .str "GET")])
      (.obj [("operation", .str "GET")]) [("operation", Json.str "GET")] rfl rfl rfl).2
     (fun v h => ⟨"GET", by simp at h; exact h.symm⟩)⟩

/-- A Get makes exactly one store call. -/
theorem get_state_calls (fail : Bool) (store : Store) (file_name : Json) :
    (get_state fail store file_name).2 = [StoreCall.getItem file_name] := by
  simp only [get_state]
  split <;> rfl

/-- An Update makes exactly one store call. -/
theorem update_state_calls (fail : Bool) (store : Store)
    (file_name new_state metadata : Json) (timestamp : String) :
    (update_state fail store file_name new_state metadata timestamp).2 =
      [StoreCall.updateItem file_name new_state timestamp metadata] := by
  simp only [update_state]
  split <;> rfl

/-- The dispatch makes at most one store call on any request, so nothing is
ever retried. -/
theorem handler_core_at_most_one_call (fail : Bool) (ts : String) (store : Store)
    (body : Json) :
    (handler_core fail ts store body).2.length ≤ 1 := by
  cases body <;> simp only [handler_core] <;> try simp
  case obj kvs =>
    cases pyUpper ((lookupKey kvs "operation").getD (.str "")) with
    | error e => simp
    | ok op =>
        by_cases hfn : truthy ((lookupKey kvs "file_name").getD .null) = false
        · simp [hfn]
        · by_cases hget : op = "GET"
          · simp only [hfn, if_false, hget, if_true, if_pos]
            rcases hg : get_state fail store ((lookupKey kvs "file_name").getD .null) with
              ⟨r, calls⟩
            have hc := get_state_calls fail store ((lookupKey kvs "file_name").getD .null)
            rw [hg] at hc
            cases r <;> simp [hg, hc]
          · by_cases hup : op = "UPDATE"
            · by_cases hns :
                truthy ((lookupKey kvs "new_state").getD .null) = false
              · simp [hfn, hget, hup, hns]
              · simp only [hfn, hget, hup, hns, if_false, if_true, if_pos]
                simp [update_state_calls]
            · simp [hfn, hget, hup]

/-- C7: whenever the store call (or the payload parsing) raises, the handler
returns a 500 response whose body's error field carries the exception text,
the store is left unchanged (no partial mutation), and at most one store
call was made (nothing is retried). -/
theorem failure_yields_500_store_unchanged (loads : String → Except String Json)
    (ts : String) (store : Store) (event : Json) (e : String)
    (calls : List StoreCall)
    (h : (parse_body loads event = .error e ∧ calls = []) ∨
         (∃ body, parse_body loads event = .ok body ∧
            handler_core true ts store body = (.error e, calls))) :
    lambda_handler loads true ts store event =
      ({ statusCode := 500, body := .obj [("error", .str e)] }, store, calls) ∧
    calls.length ≤ 1 := by
  rcases h with ⟨hp, rfl⟩ | ⟨body, hp, hc⟩
  · simp [lambda_handler, hp]
  · constructor
    · simp [lambda_handler, hp, hc]
    · have hlen := handler_core_at_most_one_call true ts store body
      rw [hc] at hlen
      simpa using hlen

/-- Witness for C7: a GET request against a failing store gets a 500 with the
store's error text, an unchanged store, and a single (unretried) store
call. -/
theorem failure_yields_500_store_unchanged_witness :
    (∃ body, parse_body (fun _ => .error "bad json")
        (.obj [("operation", .str "GET"), ("file_name", .str "a.pdf")]) = .ok body ∧
      handler_core true "t" [("a.pdf", [("file_name", Json.str "a.pdf")])] body =
        (.error "ClientError: DynamoDB operation failed",
         [StoreCall.getItem (.str "a.pdf")])) ∧
    lambda_handler (fun _ => .error "bad json") true "t"
        [("a.pdf", [("file_name", Json.str "a.pdf")])]
        (.obj [("operation", .str "GET"), ("file_name", .str "a.pdf")]) =
      ({ statusCode := 500,
         body := .obj [("error", .str "ClientError: DynamoDB operation failed")] },
       [("a.pdf", [("file_name", Json.str "a.pdf")])],
       [StoreCall.getItem (.str "a.pdf")]) ∧
    [StoreCall.getItem (Json.str "a.pdf")].length ≤ 1 :=
  ⟨⟨.obj [("operation", .str "GET"), ("file_name", .str "a.pdf")], rfl, rfl⟩,
   failure_yields_500_store_unchanged (fun _ => .error "bad json") "t"
     [("a.pdf", [("file_name", Json.str "a.pdf")])]
     (.obj [("operation", .str "GET"), ("file_name", .str "a.pdf")])
     "ClientError: DynamoDB operation failed" [StoreCall.getItem (.str "a.pdf")]
     (Or.inr ⟨.obj [("operation", .str "GET"), ("file_name", .str "a.pdf")], rfl, rfl⟩)⟩

end StateManager

